import Mathlib

/-
Verification of the Meal Maker recipe-matching engine.

The engine is `suggest_recipes` from `MealMakerPrototypeGUI.py` (lines 112-123):
it normalizes the user's ingredient list into a set of trimmed, lower-cased,
non-empty tokens, scores every catalog recipe by the fraction of the recipe's
distinct lower-cased ingredients present in the user set (denominator clamped
to at least 1), sorts the scored entries by score descending with Python's
stable sort, and returns the Python slice `scored[:top_k]`.

Python strings are modelled through their character lists, so every string
operation used by the engine (strip, lower, replace, split) is a structural
Lean function; Python's `set` is modelled as `Finset String`, Python floats
as `ℚ` (every score is a ratio of small integers, and IEEE double rounding
cannot reorder or conflate two such ratios unless a recipe has more than 2^26
distinct ingredients), Python's stable `list.sort` as `List.mergeSort`, and
the Python slice `l[:k]` (including its negative-index semantics) as `pySlice`.
-/

namespace MealMaker

open List

/-- Model of Python `str.strip` (drop leading and trailing whitespace). -/
def py_strip (s : String) : String :=
  ⟨((s.data.dropWhile Char.isWhitespace).reverse.dropWhile Char.isWhitespace).reverse⟩

/-- Model of Python `str.lower` (ASCII case folding, as used by the catalog). -/
def py_lower (s : String) : String :=
  ⟨s.data.map Char.toLower⟩

/-- Model of Python `str.replace(",", " ")`. -/
def py_replace_comma (s : String) : String :=
  ⟨s.data.map (fun c => if c = ',' then ' ' else c)⟩

/-- Split a character list at characters satisfying `p`, keeping the pieces. -/
def split_chars (p : Char → Bool) : List Char → List Char → List (List Char)
  | [], acc => [acc.reverse]
  | c :: cs, acc =>
    if p c then acc.reverse :: split_chars p cs [] else split_chars p cs (c :: acc)

/-- Model of Python `str.split()` with no argument: split on whitespace runs,
discarding empty pieces. -/
def py_split_ws (s : String) : List String :=
  ((split_chars Char.isWhitespace s.data []).map (fun cs => (⟨cs⟩ : String))).filter
    (fun t => decide (t ≠ ""))

/-- A catalog entry, as in the module-level `recipes` list of dicts. -/
structure Recipe where
  name : String
  ingredients : List String
  instructions : String
  tags : List String
deriving DecidableEq

/-- One element of the list built by `suggest_recipes`: the dict
`{"name": ..., "score": ..., "ingredients": ..., "instructions": ...}`. -/
structure ScoredEntry where
  name : String
  score : ℚ
  ingredients : List String
  instructions : String

/-- Line 113: `set(map(str.lower, [i.strip() for i in user_ingredients if i.strip()]))`. -/
def user_set (user_ingredients : List String) : Finset String :=
  (((user_ingredients.map py_strip).filter (fun s => decide (s ≠ ""))).map py_lower).toFinset

/-- Line 116: `set(map(str.lower, r["ingredients"]))`. -/
def recipe_set (r : Recipe) : Finset String :=
  (r.ingredients.map py_lower).toFinset

/-- Lines 116-120: the dict appended to `scored` for one recipe `r`, with
`overlap = len(user_set & r_set)` and `score = overlap / max(1, len(r_set))`. -/
def score_entry (us : Finset String) (r : Recipe) : ScoredEntry :=
  let r_set := recipe_set r
  let overlap := (us ∩ r_set).card
  let score : ℚ := (overlap : ℚ) / ((max 1 r_set.card : ℕ) : ℚ)
  { name := r.name, score := score, ingredients := r.ingredients,
    instructions := r.instructions }

/-- Lines 114-120: the `scored` list, one entry per catalog recipe in
catalog order. -/
def scored_list (recipe_db : List Recipe) (user_ingredients : List String) :
    List ScoredEntry :=
  recipe_db.map (score_entry (user_set user_ingredients))

/-- Line 122: `scored.sort(key=lambda x: x["score"], reverse=True)` — Python's
sort is stable, and `reverse=True` keeps equal-key elements in their original
order, so it is the stable sort under "score of the later is at most score of
the earlier". -/
def sort_desc (scored : List ScoredEntry) : List ScoredEntry :=
  scored.mergeSort (fun a b => decide (b.score ≤ a.score))

/-- Model of the Python slice `l[:k]` for an integer `k`: for `k ≥ 0` the first
`k` elements; for `k < 0` all but the last `|k|` elements (empty when `|k|`
meets or exceeds the length). -/
def pySlice {α : Type} (l : List α) (k : Int) : List α :=
  if 0 ≤ k then l.take k.toNat else l.take (l.length - (-k).toNat)

/-- Lines 112-123: `suggest_recipes`, with the module-level `recipes` global
made an explicit parameter `recipe_db`. -/
def suggest_recipes (recipe_db : List Recipe) (user_ingredients : List String)
    (top_k : Int) : List ScoredEntry :=
  pySlice (sort_desc (scored_list recipe_db user_ingredients)) top_k

/-- Lines 47-108: the module-level recipe catalog. -/
def recipes : List Recipe :=
  [ { name := "Vegetable Omelette",
      ingredients := ["eggs", "onion", "tomato", "spinach", "salt", "pepper"],
      instructions := "Whisk eggs. Cook chopped veggies in a pan. Add eggs and fold.",
      tags := ["breakfast", "fast", "healthy"] },
    { name := "Pasta with Tomato Sauce",
      ingredients := ["pasta", "tomato", "garlic", "olive oil", "salt", "basil"],
      instructions := "Boil pasta. Simmer garlic and tomato sauce. Mix.",
      tags := ["lunch", "easy"] },
    { name := "Mexican Chicken Tacos",
      ingredients := ["chicken", "tortillas", "onion", "cilantro", "lime"],
      instructions := "Sauté chicken. Warm tortillas. Add toppings.",
      tags := ["latin", "protein"] },
    { name := "Lentil Soup",
      ingredients := ["lentils", "carrot", "onion", "celery", "garlic", "salt"],
      instructions := "Simmer all ingredients for 30 min.",
      tags := ["vegan", "cheap", "batch-cooking"] },
    { name := "Fried Rice",
      ingredients := ["rice", "egg", "carrot", "pea", "soy sauce", "onion"],
      instructions := "Stir fry ingredients in wok.",
      tags := ["asian", "use-leftovers"] },
    { name := "Chicken Rice Bowl",
      ingredients := ["rice", "chicken", "soy sauce", "carrot", "onion"],
      instructions := "Cook rice. Stir fry chicken and veggies.",
      tags := ["balanced"] },
    { name := "Guacamole",
      ingredients := ["avocado", "onion", "tomato", "lime", "cilantro", "salt"],
      instructions := "Mash avocado. Mix chopped ingredients.",
      tags := ["dip", "healthy", "snack"] },
    { name := "Greek Salad",
      ingredients := ["tomato", "cucumber", "olive oil", "onion", "feta", "oregano"],
      instructions := "Chop and mix all ingredients.",
      tags := ["veggie", "fresh", "low-cal"] },
    { name := "Fruit Yogurt Bowl",
      ingredients := ["yogurt", "banana", "berries", "honey", "granola"],
      instructions := "Layer yogurt, fruit and granola.",
      tags := ["breakfast", "healthy"] },
    { name := "Stir-Fry Veggies",
      ingredients := ["broccoli", "carrot", "pepper", "soy sauce", "garlic"],
      instructions := "Stir fry on high heat.",
      tags := ["vegan", "fast"] } ]

/-- Lines 491-492 of `MealMakerShell.on_search`:
`raw = ingredient_string.lower().replace(",", " ")` followed by
`[i.strip() for i in raw.split() if i.strip()]`. -/
def on_search_tokens (ingredient_string : String) : List String :=
  let raw := py_replace_comma (py_lower ingredient_string)
  ((py_split_ws raw).map py_strip).filter (fun s => decide (s ≠ ""))

/-- Modelled from the spec: the source has no matcher constructor and no
`InvalidCatalog` error anywhere (the catalog is a module-level literal that is
simply read by `suggest_recipes`), so the error taxonomy of the core is taken
from the spec's RecipeMatcher construction contract. `CoreError` lists every
error kind of the core. -/
inductive CoreError where
  | invalidCatalog
deriving DecidableEq

/-- Modelled from the spec: a constructed matcher holds a non-empty catalog. -/
structure RecipeMatcher where
  catalog : List Recipe
  catalog_ne : catalog ≠ []

/-- Modelled from the spec: constructing a matcher fails with `InvalidCatalog`
exactly when the supplied catalog is empty. -/
def make_matcher (cat : List Recipe) : Except CoreError RecipeMatcher :=
  if h : cat = [] then Except.error CoreError.invalidCatalog
  else Except.ok ⟨cat, h⟩

/-- The mutable context `suggest_recipes` runs in: the module-level catalog. -/
structure CatalogState where
  recipe_db : List Recipe

/-- State-passing reading of `suggest_recipes`: the body only reads the
module-level catalog (no statement in lines 112-123 assigns to `recipes` or
writes through any recipe dict), so the state after the call is the state
threaded through unchanged. -/
def suggest_recipes_st (st : CatalogState) (user_ingredients : List String)
    (top_k : Int) : List ScoredEntry × CatalogState :=
  let us := user_set user_ingredients
  let scored := st.recipe_db.map (score_entry us)
  let sorted := sort_desc scored
  (pySlice sorted top_k, st)

/-- Default used only to state positional facts via `List.getD`. -/
def dummy_entry : ScoredEntry := { name := "", score := 0, ingredients := [], instructions := "" }

/-- Default used only to state positional facts via `List.getD`. -/
def dummy_recipe : Recipe := { name := "", ingredients := [], instructions := "", tags := [] }

/-- The fields of a result entry that are copied verbatim from a recipe. -/
def result_fields (e : ScoredEntry) : String × List String × String :=
  (e.name, e.ingredients, e.instructions)

/-- The fields of a catalog recipe that `suggest_recipes` passes through. -/
def recipe_fields (r : Recipe) : String × List String × String :=
  (r.name, r.ingredients, r.instructions)

/-- The Python slice keeps an initial segment of the list. -/
theorem pySlice_pre {α : Type} (l : List α) (k : Int) : pySlice l k <+: l := by
  unfold pySlice
  split
  · exact List.take_prefix _ _
  · exact List.take_prefix _ _

/-- The Python slice yields a sublist. -/
theorem pySlice_sub {α : Type} (l : List α) (k : Int) : pySlice l k <+ l :=
  (pySlice_pre l k).sublist

/-- Sorting does not change the length of the scored list. -/
theorem length_sort_desc (l : List ScoredEntry) : (sort_desc l).length = l.length :=
  List.length_mergeSort l

/-- The scored list has one entry per catalog recipe. -/
theorem length_scored_list (recipe_db : List Recipe) (u : List String) :
    (scored_list recipe_db u).length = recipe_db.length :=
  List.length_map recipe_db _

/-- The comparison used by the descending sort is transitive. -/
theorem score_le_trans (a b c : ScoredEntry)
    (h1 : decide (b.score ≤ a.score) = true) (h2 : decide (c.score ≤ b.score) = true) :
    decide (c.score ≤ a.score) = true := by
  simp only [decide_eq_true_eq] at h1 h2 ⊢
  exact le_trans h2 h1

/-- The comparison used by the descending sort is total. -/
theorem score_le_total (a b : ScoredEntry) :
    (decide (b.score ≤ a.score) || decide (a.score ≤ b.score)) = true := by
  rcases le_total a.score b.score with h | h <;> simp [h]

/-- For a non-negative slice bound, the result length is the minimum of the
bound and the catalog size. -/
theorem suggest_length_of_nonneg (recipe_db : List Recipe) (u : List String)
    (k : Int) (h0 : 0 ≤ k) :
    (suggest_recipes recipe_db u k).length = min k.toNat recipe_db.length := by
  simp [suggest_recipes, pySlice, h0, length_sort_desc, length_scored_list]

/-- Claim C1: for every query whose normalized user ingredient set is non-empty
and every catalog recipe, the score that `suggest_recipes` assigns to that
recipe equals the cardinality of the intersection of the user set with the
recipe's distinct normalized ingredients, divided by the maximum of 1 and the
number of distinct normalized ingredients of that recipe (duplicates inside a
recipe count once, being collapsed by the set). -/
theorem score_is_overlap_fraction (recipe_db : List Recipe) (u : List String)
    (i : ℕ) (hu : user_set u ≠ ∅) (hi : i < recipe_db.length) :
    ((scored_list recipe_db u).getD i dummy_entry).score =
      ((user_set u ∩ recipe_set (recipe_db.getD i dummy_recipe)).card : ℚ) /
        ((max 1 (recipe_set (recipe_db.getD i dummy_recipe)).card : ℕ) : ℚ) := by
  have hi' : i < (scored_list recipe_db u).length := by
    rwa [length_scored_list]
  rw [List.getD_eq_getElem _ _ hi', List.getD_eq_getElem _ _ hi]
  simp [scored_list, score_entry]

/-- Witness for C1: the first catalog recipe at the query "Eggs , ONION". -/
theorem score_is_overlap_fraction_witness :
    user_set ["Eggs ", "ONION"] ≠ ∅ ∧ 0 < recipes.length ∧
      ((scored_list recipes ["Eggs ", "ONION"]).getD 0 dummy_entry).score =
        ((user_set ["Eggs ", "ONION"] ∩ recipe_set (recipes.getD 0 dummy_recipe)).card : ℚ) /
          ((max 1 (recipe_set (recipes.getD 0 dummy_recipe)).card : ℕ) : ℚ) :=
  ⟨by decide, by decide,
    score_is_overlap_fraction recipes ["Eggs ", "ONION"] 0 (by decide) (by decide)⟩

/-- Claim C3: for every non-empty catalog, every query (including one that
normalizes to an empty ingredient set) and every positive `top_k`, the list
returned by `suggest_recipes` has length exactly `min top_k (catalog size)`. -/
theorem suggest_length_eq_min (recipe_db : List Recipe) (u : List String)
    (k : Int) (hdb : recipe_db ≠ []) (hk : 0 < k) :
    (suggest_recipes recipe_db u k).length = min k.toNat recipe_db.length :=
  suggest_length_of_nonneg recipe_db u k (le_of_lt hk)

/-- Witness for C3: the fixed catalog, an empty-normalizing query, `top_k = 3`. -/
theorem suggest_length_eq_min_witness :
    recipes ≠ [] ∧ (0 : Int) < 3 ∧
      (suggest_recipes recipes [" "] 3).length = min (3 : Int).toNat recipes.length :=
  ⟨by decide, by decide, suggest_length_eq_min recipes [" "] 3 (by decide) (by decide)⟩

/-- Claim C7: constructing the matcher with an empty recipe catalog fails with
the `InvalidCatalog` error; that error is the only error kind of the core; and
construction with any non-empty catalog succeeds, holding that catalog. -/
theorem make_matcher_spec :
    make_matcher [] = Except.error CoreError.invalidCatalog ∧
      (∀ e : CoreError, e = CoreError.invalidCatalog) ∧
      ∀ cat : List Recipe, cat ≠ [] →
        ∃ m : RecipeMatcher, make_matcher cat = Except.ok m ∧ m.catalog = cat := by
  refine ⟨rfl, ?_, ?_⟩
  · intro e
    cases e
    rfl
  · intro cat h
    exact ⟨⟨cat, h⟩, by simp [make_matcher, h], rfl⟩

/-- Witness for C7: construction succeeds on the fixed non-empty catalog. -/
theorem make_matcher_spec_witness :
    recipes ≠ [] ∧
      ∃ m : RecipeMatcher, make_matcher recipes = Except.ok m ∧ m.catalog = recipes :=
  ⟨by decide, make_matcher_spec.2.2 recipes (by decide)⟩

/-- Claim C8: a call to `suggest_recipes` leaves the catalog state unchanged
(every recipe keeps its name, ingredients, instructions and tags), a repeated
identical call on the resulting state returns the identical answer, and the
returned list is the deterministic pure value `suggest_recipes` of the
catalog and the inputs. -/
theorem suggest_no_mutation (st : CatalogState) (u : List String) (k : Int) :
    (suggest_recipes_st st u k).2 = st ∧
      ((suggest_recipes_st st u k).2).recipe_db = st.recipe_db ∧
      suggest_recipes_st ((suggest_recipes_st st u k).2) u k = suggest_recipes_st st u k ∧
      (suggest_recipes_st st u k).1 = suggest_recipes st.recipe_db u k :=
  ⟨rfl, rfl, rfl, rfl⟩

/-- Claim C9: two user ingredient lists normalizing to the same set of trimmed,
lower-cased, non-empty tokens (in particular, lists differing only in token
order, repetition, letter case or surrounding whitespace) produce exactly the
same result list for the same `top_k`. -/
theorem suggest_respects_normalization (recipe_db : List Recipe)
    (u1 u2 : List String) (k : Int) (h : user_set u1 = user_set u2) :
    suggest_recipes recipe_db u1 k = suggest_recipes recipe_db u2 k := by
  simp [suggest_recipes, scored_list, h]

/-- Witness for C9: two queries differing in order, repetition, case and
whitespace. -/
theorem suggest_respects_normalization_witness :
    user_set ["Eggs ", "onion", "eggs"] = user_set ["onion", " EGGS"] ∧
      suggest_recipes recipes ["Eggs ", "onion", "eggs"] 2 =
        suggest_recipes recipes ["onion", " EGGS"] 2 :=
  ⟨by decide,
    suggest_respects_normalization recipes ["Eggs ", "onion", "eggs"] ["onion", " EGGS"] 2
      (by decide)⟩

/-- Claim C10: every element of the result list corresponds to a distinct
catalog recipe whose name, ingredients and instructions are passed through
verbatim: the multiset of result field triples embeds into the multiset of
catalog field triples, so no catalog entry is used more than once. -/
theorem results_drawn_from_catalog (recipe_db : List Recipe) (u : List String)
    (k : Int) :
    ((suggest_recipes recipe_db u k).map result_fields) <+~
        (recipe_db.map recipe_fields) := by
  have h1 : (suggest_recipes recipe_db u k).map result_fields <+
      (sort_desc (scored_list recipe_db u)).map result_fields :=
    (pySlice_sub _ _).map _
  have h2 : List.Perm ((sort_desc (scored_list recipe_db u)).map result_fields)
      ((scored_list recipe_db u).map result_fields) :=
    (List.mergeSort_perm _ _).map _
  have h3 : (scored_list recipe_db u).map result_fields = recipe_db.map recipe_fields := by
    rw [scored_list, List.map_map]
    rfl
  rw [← h3]
  exact h1.subperm.trans h2.subperm

/-- Stability of the descending sort: filtering the sorted list at any one
score value returns exactly the same-score entries in their original order. -/
theorem sort_desc_filter_eq (l : List ScoredEntry) (s : ℚ) :
    (sort_desc l).filter (fun e => decide (e.score = s)) =
      l.filter (fun e => decide (e.score = s)) := by
  have hmem : ∀ e ∈ l.filter (fun e => decide (e.score = s)), e.score = s := by
    intro e he
    simpa using (List.mem_filter.mp he).2
  have hpw : (l.filter (fun e => decide (e.score = s))).Pairwise
      (fun a b => decide (b.score ≤ a.score) = true) := by
    apply List.pairwise_of_forall_mem_list
    intro a ha b hb
    simp [hmem a ha, hmem b hb]
  have hsub : l.filter (fun e => decide (e.score = s)) <+ sort_desc l :=
    List.sublist_mergeSort score_le_trans score_le_total hpw (List.filter_sublist l)
  have hself : (l.filter (fun e => decide (e.score = s))).filter
      (fun e => decide (e.score = s)) = l.filter (fun e => decide (e.score = s)) := by
    apply List.filter_eq_self.mpr
    intro a ha
    simp [hmem a ha]
  have hsub2 : l.filter (fun e => decide (e.score = s)) <+
      (sort_desc l).filter (fun e => decide (e.score = s)) := by
    have h2 := hsub.filter (fun e => decide (e.score = s))
    rwa [hself] at h2
  have hperm : List.Perm ((sort_desc l).filter (fun e => decide (e.score = s)))
      (l.filter (fun e => decide (e.score = s))) :=
    (List.mergeSort_perm l _).filter _
  exact (hsub2.eq_of_length hperm.length_eq.symm).symm

/-- Claim C2: for every query, the sequence returned by `suggest_recipes` is
sorted by non-increasing score, and the entries carrying any given score occur
as an initial segment of the same-score entries of the scored list, which is
in catalog order — so equal-score results keep the relative order their
recipes have in the catalog (the stable tie-break). -/
theorem suggest_sorted_and_stable (recipe_db : List Recipe) (u : List String)
    (k : Int) :
    (suggest_recipes recipe_db u k).Pairwise (fun a b => b.score ≤ a.score) ∧
      ∀ s : ℚ,
        (suggest_recipes recipe_db u k).filter (fun e => decide (e.score = s)) <+:
          (scored_list recipe_db u).filter (fun e => decide (e.score = s)) := by
  constructor
  · have hp : (sort_desc (scored_list recipe_db u)).Pairwise
        (fun a b => decide (b.score ≤ a.score) = true) :=
      List.sorted_mergeSort score_le_trans score_le_total (scored_list recipe_db u)
    have hp2 : (sort_desc (scored_list recipe_db u)).Pairwise
        (fun a b => b.score ≤ a.score) :=
      hp.imp (fun h => of_decide_eq_true h)
    exact hp2.sublist (pySlice_sub _ _)
  · intro s
    have h1 : suggest_recipes recipe_db u k <+: sort_desc (scored_list recipe_db u) :=
      pySlice_pre _ _
    have h2 := h1.filter (fun e => decide (e.score = s))
    rwa [sort_desc_filter_eq] at h2

/-- Counterexample to claim C4: the empty query text normalizes to the empty
ingredient set, yet `suggest_recipes` on the fixed catalog with `top_k = 3`
does not return the empty list. -/
theorem empty_query_counterexample :
    user_set (on_search_tokens "") = ∅ ∧
      suggest_recipes recipes (on_search_tokens "") 3 ≠ [] := by
  refine ⟨by decide, ?_⟩
  intro h
  have hl := suggest_length_of_nonneg recipes (on_search_tokens "") 3 (by decide)
  rw [h] at hl
  simp [recipes] at hl

/-- Claim C4 as amended: a query normalizing to the empty ingredient set is
not answered by an empty list; instead every entry of the result carries score
0, and for non-negative `top_k` the result length is `min top_k (catalog
size)` exactly as for any other query; no error is raised. -/
theorem empty_query_scores_zero (recipe_db : List Recipe) (u : List String)
    (k : Int) (hu : user_set u = ∅) :
    (∀ e ∈ suggest_recipes recipe_db u k, e.score = 0) ∧
      (0 ≤ k → (suggest_recipes recipe_db u k).length = min k.toNat recipe_db.length) := by
  constructor
  · intro e he
    have h1 : e ∈ sort_desc (scored_list recipe_db u) := (pySlice_sub _ _).subset he
    have h2 : e ∈ scored_list recipe_db u := List.mem_mergeSort.mp h1
    obtain ⟨r, hr, rfl⟩ := List.mem_map.mp h2
    simp [score_entry, hu]
  · intro h0
    exact suggest_length_of_nonneg recipe_db u k h0

/-- Witness for the amended C4: a whitespace-and-comma query on the fixed
catalog with `top_k = 3`. -/
theorem empty_query_scores_zero_witness :
    user_set (on_search_tokens " ,  ,") = ∅ ∧
      ((∀ e ∈ suggest_recipes recipes (on_search_tokens " ,  ,") 3, e.score = 0) ∧
        ((0 : Int) ≤ 3 →
          (suggest_recipes recipes (on_search_tokens " ,  ,") 3).length =
            min (3 : Int).toNat recipes.length)) :=
  ⟨by decide, empty_query_scores_zero recipes (on_search_tokens " ,  ,") 3 (by decide)⟩

/-- Counterexample to claim C5: with `top_k = 0` the code returns the empty
list, not the single best-ranked result that `top_k = 1` returns. -/
theorem nonpositive_topk_counterexample :
    suggest_recipes recipes ["eggs"] 0 = [] ∧
      suggest_recipes recipes ["eggs"] 1 ≠ [] := by
  constructor
  · simp [suggest_recipes, pySlice]
  · intro h
    have hl := suggest_length_of_nonneg recipes ["eggs"] 1 (by decide)
    rw [h] at hl
    simp [recipes] at hl

/-- Claim C5 as amended: non-positive `top_k` is not clamped to 1; the Python
slice semantics of `scored[:top_k]` apply instead — `top_k = 0` yields the
empty list, and a negative `top_k` yields all but the last `|top_k|` ranked
entries, so the result length is the catalog size minus `|top_k|` (truncated
at zero); no error is raised. -/
theorem nonpositive_topk_slice (recipe_db : List Recipe) (u : List String)
    (k : Int) (hk : k ≤ 0) :
    (k = 0 → suggest_recipes recipe_db u k = []) ∧
      (k < 0 → (suggest_recipes recipe_db u k).length =
        recipe_db.length - (-k).toNat) := by
  constructor
  · rintro rfl
    simp [suggest_recipes, pySlice]
  · intro hneg
    have hnot : ¬ (0 : Int) ≤ k := not_le.mpr hneg
    simp [suggest_recipes, pySlice, hnot, length_sort_desc, length_scored_list]

/-- Witness for the amended C5: `top_k = -2` on the ten-recipe catalog. -/
theorem nonpositive_topk_slice_witness :
    (-2 : Int) ≤ 0 ∧
      (((-2 : Int) = 0 → suggest_recipes recipes ["eggs"] (-2) = []) ∧
        ((-2 : Int) < 0 → (suggest_recipes recipes ["eggs"] (-2)).length =
          recipes.length - (-(-2 : Int)).toNat)) :=
  ⟨by decide, nonpositive_topk_slice recipes ["eggs"] (-2) (by decide)⟩

/-- The score of a scored entry, written out. -/
theorem score_entry_score (us : Finset String) (r : Recipe) :
    (score_entry us r).score =
      ((us ∩ recipe_set r).card : ℚ) / ((max 1 (recipe_set r).card : ℕ) : ℚ) :=
  rfl

/-- Scores are never negative. -/
theorem score_nonneg (us : Finset String) (r : Recipe) :
    0 ≤ (score_entry us r).score := by
  rw [score_entry_score]
  positivity

/-- Scores never exceed 1. -/
theorem score_le_one (us : Finset String) (r : Recipe) :
    (score_entry us r).score ≤ 1 := by
  rw [score_entry_score]
  apply div_le_one_of_le₀
  · exact_mod_cast le_trans (Finset.card_le_card Finset.inter_subset_right)
      (le_max_right 1 _)
  · positivity

/-- A recipe with at least one distinct ingredient, all of them held by the
user, scores exactly 1. -/
theorem score_eq_one_of_covered (us : Finset String) (r : Recipe)
    (hsub : recipe_set r ⊆ us) (hne : (recipe_set r).card ≠ 0) :
    (score_entry us r).score = 1 := by
  have hint : us ∩ recipe_set r = recipe_set r := Finset.inter_eq_right.mpr hsub
  rw [score_entry_score, hint, max_eq_right (Nat.one_le_iff_ne_zero.mpr hne)]
  exact div_self (by exact_mod_cast hne)

/-- Claim C6: every recipe scored by `suggest_recipes` receives a score in the
closed interval from 0 to 1, and whenever every distinct normalized ingredient
of the recipe is contained in the user's normalized ingredient set the score
is exactly 1 (every recipe of the catalog has at least one ingredient, so the
full-match score never degenerates). -/
theorem score_bounds (u : List String) (r : Recipe) (hr : r ∈ recipes) :
    0 ≤ (score_entry (user_set u) r).score ∧
      (score_entry (user_set u) r).score ≤ 1 ∧
      (recipe_set r ⊆ user_set u → (score_entry (user_set u) r).score = 1) := by
  refine ⟨score_nonneg _ _, score_le_one _ _,
    fun hsub => score_eq_one_of_covered _ _ hsub ?_⟩
  simp only [recipes, List.mem_cons, List.not_mem_nil, or_false] at hr
  rcases hr with rfl | rfl | rfl | rfl | rfl | rfl | rfl | rfl | rfl | rfl <;> decide

/-- Witness for C6: the first catalog recipe fully covered by the user set. -/
theorem score_bounds_witness :
    recipes.getD 0 dummy_recipe ∈ recipes ∧
      recipe_set (recipes.getD 0 dummy_recipe) ⊆
        user_set ["eggs", "onion", "tomato", "spinach", "salt", "pepper"] ∧
      (score_entry (user_set ["eggs", "onion", "tomato", "spinach", "salt", "pepper"])
          (recipes.getD 0 dummy_recipe)).score = 1 :=
  ⟨by decide, by decide,
    (score_bounds ["eggs", "onion", "tomato", "spinach", "salt", "pepper"]
        (recipes.getD 0 dummy_recipe) (by decide)).2.2 (by decide)⟩

end MealMaker
